import Mathlib

/-!
Shallow embedding of the mcast-database-home backend (src/main.py and
src/security_middleware.py): a FastAPI application that stores player scores
and multimedia assets (sprites, audio) in MongoDB collections, and a
security-headers middleware.

Modelling conventions, faithful to the source:
* A MongoDB collection is an association list from ObjectId strings to
  documents, together with an insertion counter (the driver assigns fresh
  ObjectIds deterministically here) and an optional injected failure that makes
  every store operation raise, modelling connectivity loss or any other
  unexpected store-layer exception.
* `raise HTTPException` and store-layer exceptions are values of `Exc`. A
  handler's `try ... except Exception as e` block is `runTry` / `runTrySt`:
  it converts ANY escaping exception -- including an `HTTPException` raised
  inside the `try` body, since Starlette's `HTTPException` subclasses
  `Exception` -- into a 500 response whose detail is the handler's fixed
  message followed by `str(e)`.
* `str(e)` of an `HTTPException(code, detail)` is `"code: detail"`
  (Starlette's `HTTPException.__str__`); of a plain store exception it is the
  exception's message.
* Pydantic validation of the `PlayerScore` body and FastAPI's 422 response run
  before the handler body; this is the `post_player_score` route wrapper.
-/

namespace McastDB

/-- Models Python `str.endswith`: character-level suffix test. -/
def pyEndsWith (s suf : String) : Bool :=
  suf.data.isSuffixOf s.data

/-- Hexadecimal digit characters, as accepted by `bson.ObjectId`. -/
def isHexChar (c : Char) : Bool :=
  (Char.ofNat 48 ≤ c && c ≤ Char.ofNat 57) ||
  (Char.ofNat 97 ≤ c && c ≤ Char.ofNat 102) ||
  (Char.ofNat 65 ≤ c && c ≤ Char.ofNat 70)

/-- Models `bson.ObjectId.is_valid` on strings: exactly 24 hex characters. -/
def objectIdIsValid (s : String) : Bool :=
  s.length == 24 && s.data.all isHexChar

/-- Lower-case hex digit of a value below 16 (as produced by ObjectId rendering). -/
def hexDigit : Nat → Char
  | 0 => Char.ofNat 48 | 1 => Char.ofNat 49 | 2 => Char.ofNat 50 | 3 => Char.ofNat 51
  | 4 => Char.ofNat 52 | 5 => Char.ofNat 53 | 6 => Char.ofNat 54 | 7 => Char.ofNat 55
  | 8 => Char.ofNat 56 | 9 => Char.ofNat 57 | 10 => Char.ofNat 97 | 11 => Char.ofNat 98
  | 12 => Char.ofNat 99 | 13 => Char.ofNat 100 | 14 => Char.ofNat 101 | _ => Char.ofNat 102

/-- The fresh ObjectId string the driver assigns for the n-th insert: 24 hex digits. -/
def natToHex24 (n : Nat) : String :=
  ⟨(List.range 24).map fun i => hexDigit (n / 16 ^ (23 - i) % 16)⟩

/-- Exceptions that can escape a handler body: a raised `HTTPException`
(status code and detail) or an unexpected store-layer exception with a
message. -/
inductive Exc where
  | http : Nat → String → Exc
  | storeErr : String → Exc
deriving DecidableEq

/-- Python `str(e)`: Starlette renders `HTTPException` as `"code: detail"`;
a plain exception renders as its message. -/
def Exc.toMsg : Exc → String
  | .http code detail => toString code ++ ": " ++ detail
  | .storeErr m => m

/-- The client-visible outcome of one handler invocation: a success payload or
an HTTP error response (status code, detail string). -/
inductive HandlerOut (α : Type) where
  | ok : α → HandlerOut α
  | httpError : Nat → String → HandlerOut α
deriving DecidableEq

/-- The `try ... except Exception as e: raise HTTPException(500, pre + str(e))`
wrapper of a read-only handler body. Note that an `HTTPException` raised inside
the `try` block is itself caught here and turned into a 500. -/
def runTry (pre : String) : Except Exc α → HandlerOut α
  | .ok a => .ok a
  | .error e => .httpError 500 (pre ++ e.toMsg)

/-- Same wrapper for a handler body that may change the store; on an exception
the store is returned unchanged (every raising path raises before mutating). -/
def runTrySt (pre : String) (db : σ) : Except Exc (α × σ) → HandlerOut α × σ
  | .ok (a, db') => (.ok a, db')
  | .error e => (.httpError 500 (pre ++ e.toMsg), db)

/-- A document of the `scores` collection, and also the `PlayerScore` pydantic
payload (the handler stores `score.model_dump()` verbatim). -/
structure PlayerScoreDoc where
  player_name : String
  score : Int
deriving DecidableEq

/-- A document of the `sprites` or `audio` collections: filename plus raw bytes. -/
structure AssetDoc where
  filename : String
  content : List Nat
deriving DecidableEq

/-- An uploaded multipart file: filename and bytes returned by `file.read()`. -/
structure UploadedFile where
  filename : String
  content : List Nat
deriving DecidableEq

/-- One MongoDB collection: documents keyed by ObjectId string, the driver's
insertion counter, and an optional injected store-layer failure message (when
set, every operation on the collection raises). -/
structure Collection (δ : Type) where
  docs : List (String × δ)
  counter : Nat
  failure : Option String
deriving DecidableEq

/-- `find_one({"_id": oid})`: first document with the given id, unless the
store is failing. -/
def Collection.find_one (c : Collection δ) (id : String) : Except Exc (Option δ) :=
  match c.failure with
  | some m => .error (.storeErr m)
  | none => .ok ((c.docs.find? fun p => p.1 == id).map Prod.snd)

/-- `insert_one(doc)`: appends the document under a driver-assigned fresh id
and returns `result.inserted_id`. -/
def Collection.insert_one (c : Collection δ) (d : δ) : Except Exc (String × Collection δ) :=
  match c.failure with
  | some m => .error (.storeErr m)
  | none =>
    .ok (natToHex24 c.counter,
      { c with docs := c.docs ++ [(natToHex24 c.counter, d)], counter := c.counter + 1 })

/-- Replace the first document stored under `id` (MongoDB `update_one` with
`$set` of every field). -/
def replaceFirst (l : List (String × δ)) (id : String) (d : δ) : List (String × δ) :=
  match l with
  | [] => []
  | p :: rest => if p.1 == id then (id, d) :: rest else p :: replaceFirst rest id d

/-- `update_one({"_id": oid}, {"$set": doc})`: returns `result.modified_count`
and the new collection. MongoDB reports `modified_count = 0` both when no
document matched and when the matched document already equals the replacement. -/
def Collection.update_one [DecidableEq δ] (c : Collection δ) (id : String) (d : δ) :
    Except Exc (Nat × Collection δ) :=
  match c.failure with
  | some m => .error (.storeErr m)
  | none =>
    match c.docs.find? fun p => p.1 == id with
    | none => .ok (0, c)
    | some p => if p.2 = d then .ok (0, c) else .ok (1, { c with docs := replaceFirst c.docs id d })

/-- Remove the first document stored under `id`. -/
def removeFirst (l : List (String × δ)) (id : String) : List (String × δ) :=
  match l with
  | [] => []
  | p :: rest => if p.1 == id then rest else p :: removeFirst rest id

/-- `delete_one({"_id": oid})`: returns `result.deleted_count` (0 or 1) and
the new collection. -/
def Collection.delete_one (c : Collection δ) (id : String) : Except Exc (Nat × Collection δ) :=
  match c.failure with
  | some m => .error (.storeErr m)
  | none =>
    if c.docs.any fun p => p.1 == id then
      .ok (1, { c with docs := removeFirst c.docs id })
    else .ok (0, c)

/-- The `scores` collection. -/
abbrev ScoresColl := Collection PlayerScoreDoc

/-- The `sprites` or `audio` collection. -/
abbrev AssetColl := Collection AssetDoc

/-- Success payload of GET /player_score. -/
structure ScoreView where
  player_name : String
  score : Int
deriving DecidableEq

/-- Success payload of the mutating endpoints: a message and an id. -/
structure MsgId where
  message : String
  id : String
deriving DecidableEq

/-- GET /player_score (src/main.py `get_player_score`): validates the id,
looks the score up, 404 when absent -- all inside the handler's
`try ... except Exception` block. -/
def get_player_score (db : ScoresColl) (player_id : String) : HandlerOut ScoreView :=
  runTry "Failed to retrieve player score: " do
    if !objectIdIsValid player_id then
      throw (Exc.http 400 "Invalid Id")
    match ← db.find_one player_id with
    | some d => pure ⟨d.player_name, d.score⟩
    | none => throw (Exc.http 404 "Player not found")

/-- POST /player_score handler body (src/main.py `add_score`): inserts the
validated payload, returns the new id. -/
def add_score (db : ScoresColl) (score : PlayerScoreDoc) : HandlerOut MsgId × ScoresColl :=
  runTrySt "Failed to record score: " db do
    let (id, db') ← db.insert_one score
    pure (⟨"Score recorded", id⟩, db')

/-- Pydantic field constraints on `PlayerScore`
(`player_name: min_length=1, max_length=50`, `score: ge=0, le=200`). -/
def validPlayerScore (p : PlayerScoreDoc) : Bool :=
  1 ≤ p.player_name.length && p.player_name.length ≤ 50 && 0 ≤ p.score && p.score ≤ 200

/-- The POST /player_score route: FastAPI/pydantic reject an invalid body with
a 422 before the handler body runs (so the store is never touched). -/
def post_player_score (db : ScoresColl) (p : PlayerScoreDoc) : HandlerOut MsgId × ScoresColl :=
  if validPlayerScore p then add_score db p
  else (.httpError 422 "Unprocessable Entity", db)

/-- PUT /player_score (src/main.py `update_player_score`): id check, `$set`
update, 404 unless `modified_count == 1` -- all inside the `try` block. -/
def update_player_score (db : ScoresColl) (player_id : String) (score : PlayerScoreDoc) :
    HandlerOut MsgId × ScoresColl :=
  runTrySt "Failed to update player score: " db do
    if !objectIdIsValid player_id then
      throw (Exc.http 400 "Invalid Id")
    let (modifiedCount, db') ← db.update_one player_id score
    if modifiedCount == 1 then
      pure (⟨"Player score updated", player_id⟩, db')
    else
      throw (Exc.http 404 "Player not found")

/-- DELETE /player_score (src/main.py `delete_player_score`): id check,
`delete_one`, 404 unless `deleted_count == 1` -- all inside the `try` block. -/
def delete_player_score (db : ScoresColl) (player_id : String) :
    HandlerOut MsgId × ScoresColl :=
  runTrySt "Failed to delete player score: " db do
    if !objectIdIsValid player_id then
      throw (Exc.http 400 "Invalid Id")
    let (deletedCount, db') ← db.delete_one player_id
    if deletedCount == 1 then
      pure (⟨"Player score deleted", player_id⟩, db')
    else
      throw (Exc.http 404 "Player score not found")

/-- Sprite extension allow-list:
`file.filename.endswith(('.png', '.jpg', '.jpeg'))`. -/
def sprite_ext_ok (f : String) : Bool :=
  pyEndsWith f ".png" || pyEndsWith f ".jpg" || pyEndsWith f ".jpeg"

/-- Audio extension allow-list:
`file.filename.endswith(('.mp3', '.wav', '.ogg'))`. -/
def audio_ext_ok (f : String) : Bool :=
  pyEndsWith f ".mp3" || pyEndsWith f ".wav" || pyEndsWith f ".ogg"

/-- POST /upload_sprite (src/main.py `upload_sprite`): the extension check runs
before the `try` block, before `file.read()` and before any store write. -/
def upload_sprite (db : AssetColl) (file : UploadedFile) : HandlerOut MsgId × AssetColl :=
  if !sprite_ext_ok file.filename then
    (.httpError 400 "Invalid file type. Only PNG and JPG are allowed.", db)
  else
    runTrySt "Failed to upload sprite: " db do
      let content := file.content
      let (id, db') ← db.insert_one ⟨file.filename, content⟩
      pure (⟨"Sprite uploaded", id⟩, db')

/-- POST /upload_audio (src/main.py `upload_audio`); its 500 message reads
"Failed to record score: " in the source (a copy-paste), modelled verbatim. -/
def upload_audio (db : AssetColl) (file : UploadedFile) : HandlerOut MsgId × AssetColl :=
  if !audio_ext_ok file.filename then
    (.httpError 400 "Invalid file type. File must be an audio file!", db)
  else
    runTrySt "Failed to record score: " db do
      let content := file.content
      let (id, db') ← db.insert_one ⟨file.filename, content⟩
      pure (⟨"Audio file uploaded", id⟩, db')

/-- A CSP directive's content in the configuration table: a single source
value or a list of source values (src/security_middleware.py `CSP`'s value
type `str | list[str]`). -/
inductive PolicyValue where
  | one : String → PolicyValue
  | many : List String → PolicyValue
deriving DecidableEq

/-- The argument `parse_policy` accepts: an ordered directive mapping or a raw
policy string. -/
inductive PolicyInput where
  | dict : List (String × PolicyValue) → PolicyInput
  | raw : String → PolicyInput
deriving DecidableEq

/-- The static CSP table of src/security_middleware.py (insertion order kept). -/
def CSP : List (String × PolicyValue) :=
  [("default-src", .one "\x27self\x27"),
   ("img-src", .many ["*", "data:"]),
   ("connect-src", .one "\x27self\x27"),
   ("script-src", .many ["\x27self\x27", "\x27unsafe-inline\x27"]),
   ("style-src", .many ["\x27self\x27", "\x27unsafe-inline\x27"]),
   ("script-src-elem",
     .many ["\x27self\x27", "\x27unsafe-inline\x27",
            "https://cdn.jsdelivr.net/npm/swagger-ui-dist@5/swagger-ui-bundle.js"]),
   ("style-src-elem",
     .many ["https://cdn.jsdelivr.net/npm/swagger-ui-dist@5/swagger-ui.css"])]

/-- The serialization loop of `parse_policy`: list contents are joined by a
single space, then each directive renders as `"section content"`. -/
def policyContentStr : PolicyValue → String
  | .one s => s
  | .many l => String.intercalate " " l

/-- Python `dict.__setitem__` on an ordered dict: overwrite the value in place
when the key exists, else append the pair. -/
def dictInsertStr (d : List (String × String)) (k v : String) : List (String × String) :=
  match d with
  | [] => [(k, v)]
  | p :: rest => if p.1 == k then (k, v) :: rest else p :: dictInsertStr rest k v

/-- The string branch of `parse_policy`: split on `";"`, strip each part,
split the part on `" "`, use the first token as the directive and the
space-join of the remaining tokens as its value. -/
def policyStringToDict (s : String) : List (String × String) :=
  (s.splitOn ";").foldl
    (fun d part =>
      dictInsertStr d ((part.trim.splitOn " ").headD "")
        (String.intercalate " " (part.trim.splitOn " ").tail))
    []

/-- Render an ordered directive mapping: `f"{section} {content}"` for each
entry, joined by `"; "` (the shared loop at the end of `parse_policy`). -/
def serializePolicyDict (d : List (String × PolicyValue)) : String :=
  String.intercalate "; " (d.map fun p => p.1 ++ " " ++ policyContentStr p.2)

/-- src/security_middleware.py `parse_policy`: a raw string is first parsed
into an ordered mapping of string values, then both cases are serialized by
the same loop. -/
def parse_policy : PolicyInput → String
  | .dict d => serializePolicyDict d
  | .raw s => serializePolicyDict ((policyStringToDict s).map fun p => (p.1, PolicyValue.one p.2))

/-- Models Starlette's case-insensitive header keys: lower-case a header name. -/
def lowerName (s : String) : String :=
  ⟨s.data.map Char.toLower⟩

/-- An outgoing HTTP response: status, body, and raw header list in order. -/
structure HttpResponse where
  status : Nat
  body : String
  headers : List (String × String)
deriving DecidableEq

/-- Starlette `MutableHeaders.__setitem__`: drop every existing entry with the
same (case-insensitive) name, then append the new pair. -/
def setHeader (hs : List (String × String)) (k v : String) : List (String × String) :=
  (hs.filter fun p => !(lowerName p.1 == lowerName k)) ++ [(k, v)]

/-- Starlette `MutableHeaders.update(dict)`: set each pair in dict order. -/
def headersUpdate (hs upd : List (String × String)) : List (String × String) :=
  upd.foldl (fun acc p => setHeader acc p.1 p.2) hs

/-- Starlette `Headers.get`: value of the first entry matching the name
case-insensitively. -/
def getHeader (hs : List (String × String)) (k : String) : Option String :=
  (hs.find? fun p => lowerName p.1 == lowerName k).map Prod.snd

/-- The header dict built by `SecurityHeadersMiddleware.dispatch`, in source
order; the CSP value is empty when the `csp` toggle is off. -/
def securityHeaders (csp : Bool) : List (String × String) :=
  [("Content-Security-Policy", if csp then parse_policy (.dict CSP) else ""),
   ("Cross-Origin-Opener-Policy", "same-origin"),
   ("Referrer-Policy", "strict-origin-when-cross-origin"),
   ("Strict-Transport-Security", "max-age=31556926; includeSubDomains"),
   ("X-Content-Type-Options", "nosniff"),
   ("X-Frame-Options", "DENY"),
   ("X-XSS-Protection", "1; mode=block")]

/-- The seven header names the middleware always sets. -/
def securityHeaderNames : List String :=
  ["Content-Security-Policy", "Cross-Origin-Opener-Policy", "Referrer-Policy",
   "Strict-Transport-Security", "X-Content-Type-Options", "X-Frame-Options",
   "X-XSS-Protection"]

/-- The serialized CSP emitted when the toggle is on. -/
def cspHeaderValue : String :=
  parse_policy (.dict CSP)

/-- `SecurityHeadersMiddleware.dispatch`: let the wrapped app produce any
response, then `response.headers.update(headers)`. -/
def dispatch (csp : Bool) (resp : HttpResponse) : HttpResponse :=
  { resp with headers := headersUpdate resp.headers (securityHeaders csp) }

theorem hexDigit_isHex (m : Nat) (h : m < 16) : isHexChar (hexDigit m) = true := by
  interval_cases m <;> decide

theorem objectIdIsValid_natToHex24 (n : Nat) : objectIdIsValid (natToHex24 n) = true := by
  have hlen : (natToHex24 n).length = 24 := by
    show ((List.range 24).map fun i => hexDigit (n / 16 ^ (23 - i) % 16)).length = 24
    simp
  have hall : ((natToHex24 n).data.all isHexChar) = true := by
    show (((List.range 24).map fun i => hexDigit (n / 16 ^ (23 - i) % 16)).all isHexChar) = true
    rw [List.all_eq_true]
    intro c hc
    obtain ⟨i, _, rfl⟩ := List.mem_map.mp hc
    exact hexDigit_isHex _ (Nat.mod_lt _ (by norm_num))
  unfold objectIdIsValid
  rw [hlen, hall]
  rfl

theorem find?_append_none {α : Type} {p : α → Bool} {l₁ l₂ : List α}
    (h : l₁.find? p = none) : (l₁ ++ l₂).find? p = l₂.find? p := by
  induction l₁ with
  | nil => rfl
  | cons a l ih =>
    cases hpa : p a with
    | true =>
      rw [List.find?_cons_of_pos _ hpa] at h
      exact absurd h (by simp)
    | false =>
      rw [List.find?_cons_of_neg _ (by simp [hpa])] at h
      rw [List.cons_append, List.find?_cons_of_neg _ (by simp [hpa])]
      exact ih h

theorem find?_append_some {α : Type} {p : α → Bool} {l₁ l₂ : List α} {a : α}
    (h : l₁.find? p = some a) : (l₁ ++ l₂).find? p = some a := by
  induction l₁ with
  | nil => simp at h
  | cons b l ih =>
    cases hpb : p b with
    | true =>
      rw [List.find?_cons_of_pos _ hpb] at h
      rw [List.cons_append, List.find?_cons_of_pos _ hpb]
      exact h
    | false =>
      rw [List.find?_cons_of_neg _ (by simp [hpb])] at h
      rw [List.cons_append, List.find?_cons_of_neg _ (by simp [hpb])]
      exact ih h

theorem getHeader_setHeader_self (hs : List (String × String)) (k k' v : String)
    (h : lowerName k' = lowerName k) :
    getHeader (setHeader hs k' v) k = some v := by
  unfold getHeader setHeader
  rw [find?_append_none]
  · rw [List.find?_cons_of_pos _ (by simp [h])]
    rfl
  · apply List.find?_eq_none.mpr
    intro q hq
    have hmem := List.mem_filter.mp hq
    have hkeep : (!(lowerName q.1 == lowerName k')) = true := hmem.2
    rw [Bool.not_eq_true', beq_eq_false_iff_ne] at hkeep
    rw [h] at hkeep
    simp [hkeep]

theorem find?_filter_key (hs : List (String × String)) (k k' : String)
    (h : lowerName k' ≠ lowerName k) :
    ((hs.filter fun p => !(lowerName p.1 == lowerName k')).find?
        fun p => lowerName p.1 == lowerName k)
      = hs.find? fun p => lowerName p.1 == lowerName k := by
  induction hs with
  | nil => rfl
  | cons a l ih =>
    rw [List.filter_cons]
    by_cases hk : lowerName a.1 = lowerName k
    · have hkeep : (!(lowerName a.1 == lowerName k')) = true := by
        rw [Bool.not_eq_true', beq_eq_false_iff_ne]
        rw [hk]
        exact fun hc => h hc.symm
      rw [if_pos hkeep]
      have ht : (lowerName a.1 == lowerName k) = true := by simp [hk]
      rw [List.find?_cons, List.find?_cons, ht]
    · have hf : (lowerName a.1 == lowerName k) = false := by simp [hk]
      by_cases hkeep : (!(lowerName a.1 == lowerName k')) = true
      · rw [if_pos hkeep, List.find?_cons, List.find?_cons, hf]
        exact ih
      · rw [if_neg hkeep, List.find?_cons, hf]
        exact ih

theorem getHeader_setHeader_other (hs : List (String × String)) (k k' v : String)
    (h : lowerName k' ≠ lowerName k) :
    getHeader (setHeader hs k' v) k = getHeader hs k := by
  unfold getHeader setHeader
  have htail : (([((k', v))] : List (String × String)).find?
      fun p => lowerName p.1 == lowerName k) = none := by
    rw [List.find?_cons_of_neg _ (by simp [h])]
    rfl
  cases hfront : ((hs.filter fun p => !(lowerName p.1 == lowerName k')).find?
      fun p => lowerName p.1 == lowerName k) with
  | none =>
    rw [find?_append_none hfront, htail]
    rw [← find?_filter_key hs k k' h, hfront]
  | some q =>
    rw [find?_append_some hfront, ← find?_filter_key hs k k' h, hfront]

theorem headersUpdate_cons (hs : List (String × String)) (q : String × String)
    (rest : List (String × String)) :
    headersUpdate hs (q :: rest) = headersUpdate (setHeader hs q.1 q.2) rest := rfl

theorem getHeader_headersUpdate_notmem (upd hs : List (String × String)) (k : String)
    (h : ∀ p ∈ upd, lowerName p.1 ≠ lowerName k) :
    getHeader (headersUpdate hs upd) k = getHeader hs k := by
  induction upd generalizing hs with
  | nil => rfl
  | cons q rest ih =>
    rw [headersUpdate_cons]
    rw [ih _ fun p hp => h p (List.mem_cons_of_mem _ hp)]
    exact getHeader_setHeader_other _ _ _ _ (h q (List.mem_cons_self _ _))

theorem getHeader_headersUpdate_mem (upd hs : List (String × String)) (k v : String)
    (hnd : (upd.map fun p => lowerName p.1).Nodup) (hmem : (k, v) ∈ upd) :
    getHeader (headersUpdate hs upd) k = some v := by
  induction upd generalizing hs with
  | nil => cases hmem
  | cons q rest ih =>
    rw [headersUpdate_cons]
    rw [List.map_cons] at hnd
    obtain ⟨hnotin, hndrest⟩ := List.nodup_cons.mp hnd
    rcases List.mem_cons.mp hmem with heq | hmem'
    · subst heq
      have hrest : ∀ p ∈ rest, lowerName p.1 ≠ lowerName k := by
        intro p hp hc
        exact hnotin (hc ▸ List.mem_map_of_mem _ hp)
      rw [getHeader_headersUpdate_notmem _ _ _ hrest]
      exact getHeader_setHeader_self _ _ _ _ rfl
    · exact ih _ hndrest hmem'

/-- Spec reading of claim C9: a directive's "one value or a list of values"
as the list of its values. -/
def policyValuesList : PolicyValue → List String
  | .one s => [s]
  | .many l => l

/-- Spec reading of claim C9: the ordered mapping built while parsing a raw
policy string, directive to its value tokens (overwrite in place on
duplicates, as a mapping does). -/
def specDictInsert (d : List (String × List String)) (k : String) (v : List String) :
    List (String × List String) :=
  match d with
  | [] => [(k, v)]
  | p :: rest => if p.1 == k then (k, v) :: rest else p :: specDictInsert rest k v

/-- Spec reading of claim C9's raw-string case: split on ";", strip each
segment, take the first space-separated token as the directive and the
remaining tokens as its values. -/
def specRawToDict (s : String) : List (String × List String) :=
  (s.splitOn ";").foldl
    (fun d part =>
      specDictInsert d ((part.trim.splitOn " ").headD "") (part.trim.splitOn " ").tail)
    []

/-- Spec reading of claim C9's rendering: each directive renders as its name,
a space, and its values joined by single spaces; directives are joined by
"; " in mapping order. -/
def specSerialize (d : List (String × List String)) : String :=
  String.intercalate "; " (d.map fun p => p.1 ++ " " ++ String.intercalate " " p.2)

/-- Claim C9's description of `parse_policy`, written from the spec's words,
to be compared with the source translation `parse_policy`. -/
def spec_parse_policy : PolicyInput → String
  | .dict d => specSerialize (d.map fun p => (p.1, policyValuesList p.2))
  | .raw s => specSerialize (specRawToDict s)

/-- Joining a directive's token list by single spaces turns the spec's mapping
entries into the source's string-valued mapping entries. -/
def joinPair (p : String × List String) : String × String :=
  (p.1, String.intercalate " " p.2)

theorem dictInsert_join (d : List (String × List String)) (k : String) (v : List String) :
    (specDictInsert d k v).map joinPair
      = dictInsertStr (d.map joinPair) k (String.intercalate " " v) := by
  induction d with
  | nil => rfl
  | cons p rest ih =>
    show (if p.1 == k then (k, v) :: rest else p :: specDictInsert rest k v).map joinPair
      = dictInsertStr (joinPair p :: rest.map joinPair) k (String.intercalate " " v)
    by_cases h : (p.1 == k) = true
    · rw [if_pos h]
      show joinPair (k, v) :: rest.map joinPair
        = if (joinPair p).1 == k then (k, String.intercalate " " v) :: rest.map joinPair
          else joinPair p :: dictInsertStr (rest.map joinPair) k (String.intercalate " " v)
      rw [if_pos (show ((joinPair p).1 == k) = true from h)]
      rfl
    · rw [if_neg h]
      show joinPair p :: (specDictInsert rest k v).map joinPair
        = if (joinPair p).1 == k then (k, String.intercalate " " v) :: rest.map joinPair
          else joinPair p :: dictInsertStr (rest.map joinPair) k (String.intercalate " " v)
      rw [if_neg (show ¬ ((joinPair p).1 == k) = true from h), ih]

theorem rawToDict_join (s : String) :
    (specRawToDict s).map joinPair = policyStringToDict s := by
  unfold specRawToDict policyStringToDict
  generalize s.splitOn ";" = parts
  have main : ∀ (acc : List (String × List String)),
      ((parts.foldl (fun d part =>
          specDictInsert d ((part.trim.splitOn " ").headD "")
            (part.trim.splitOn " ").tail) acc).map joinPair)
        = parts.foldl (fun d part =>
            dictInsertStr d ((part.trim.splitOn " ").headD "")
              (String.intercalate " " (part.trim.splitOn " ").tail)) (acc.map joinPair) := by
    induction parts with
    | nil => intro acc; rfl
    | cons a rest ih =>
      intro acc
      rw [List.foldl_cons, List.foldl_cons, ih, dictInsert_join]
  exact main []

/-- A well-formed ObjectId (24 hex characters) used in concrete scenarios. -/
def absentId : String := "0123456789abcdef01234567"

/-- The empty `scores` collection with a healthy store. -/
def emptyScores : ScoresColl := ⟨[], 0, none⟩

/-- Claim C1: for a well-formed ObjectId matching no document, GET, PUT and
DELETE /player_score are claimed to return the not-found (404) client error.
The code instead returns 500: the `raise HTTPException(404, ...)` sits inside
the handler's `try` block, whose `except Exception` catches it (Starlette's
`HTTPException` subclasses `Exception`) and re-raises it as a 500 whose detail
embeds the swallowed 404. This theorem evaluates the code at the failing
input. -/
theorem C1_absent_id_gives_500 :
    get_player_score emptyScores absentId
      = .httpError 500 "Failed to retrieve player score: 404: Player not found" ∧
    (update_player_score emptyScores absentId ⟨"Ada", 10⟩).1
      = .httpError 500 "Failed to update player score: 404: Player not found" ∧
    (delete_player_score emptyScores absentId).1
      = .httpError 500 "Failed to delete player score: 404: Player score not found" :=
  ⟨rfl, rfl, rfl⟩

/-- Claim C2: for an identifier that is not a valid ObjectId, read/update/
delete are claimed to return the invalid-identifier (400) client error and
perform no store operation. No store operation is indeed performed: for EVERY
collection state `db` -- even one whose store is failing -- the result is the
same and the collection is returned unchanged. But the visible status is 500,
not 400: the `raise HTTPException(400, "Invalid Id")` inside the `try` block
is caught by `except Exception` and re-raised as a 500. -/
theorem C2_invalid_id_gives_500 (db : ScoresColl) :
    objectIdIsValid "xyz" = false ∧
    get_player_score db "xyz"
      = .httpError 500 "Failed to retrieve player score: 400: Invalid Id" ∧
    (update_player_score db "xyz" ⟨"Ada", 10⟩).1
      = .httpError 500 "Failed to update player score: 400: Invalid Id" ∧
    (update_player_score db "xyz" ⟨"Ada", 10⟩).2 = db ∧
    (delete_player_score db "xyz").1
      = .httpError 500 "Failed to delete player score: 400: Invalid Id" ∧
    (delete_player_score db "xyz").2 = db :=
  ⟨rfl, rfl, rfl, rfl, rfl, rfl⟩

/-- Claim C3 (counterexample): the claim says the internal exception's message
text never appears in the client-visible response. At a store failing with
message "boom", GET /player_score answers 500 with a detail that is the fixed
prefix concatenated with the internal message -- the detail ends with the
internal exception's text. -/
theorem C3_counterexample :
    get_player_score ⟨[], 0, some "boom"⟩ absentId
      = .httpError 500 ("Failed to retrieve player score: " ++ "boom") ∧
    pyEndsWith "Failed to retrieve player score: boom" "boom" = true :=
  ⟨rfl, by decide⟩

/-- Claim C3 as amended: an unexpected store-layer exception is surfaced as a
server-error (500) whose client-visible detail is the handler's fixed prefix
followed by the exception's message text (`str(e)`); the stack trace is only
printed to the server log and never included in the response. -/
theorem C3_amended_prefix_plus_message (db : ScoresColl) (m pid : String)
    (p : PlayerScoreDoc) (hfail : db.failure = some m)
    (hid : objectIdIsValid pid = true) :
    get_player_score db pid
      = .httpError 500 ("Failed to retrieve player score: " ++ m) ∧
    add_score db p = (.httpError 500 ("Failed to record score: " ++ m), db) := by
  constructor
  · simp only [get_player_score, runTry, Collection.find_one, hfail, hid, Bool.not_true,
      Bool.false_eq_true, if_false]
    rfl
  · simp only [add_score, runTrySt, Collection.insert_one, hfail]
    rfl

/-- Witness for C3's amended theorem at a concrete failing store. -/
theorem C3_witness :
    get_player_score ⟨[], 0, some "oops"⟩ absentId
      = .httpError 500 ("Failed to retrieve player score: " ++ "oops") ∧
    add_score ⟨[], 0, some "oops"⟩ ⟨"Ada", 1⟩
      = (.httpError 500 ("Failed to record score: " ++ "oops"), ⟨[], 0, some "oops"⟩) :=
  C3_amended_prefix_plus_message ⟨[], 0, some "oops"⟩ "oops" absentId ⟨"Ada", 1⟩ rfl (by decide)

/-- Claim C4: creating a valid PlayerScore then reading it back by the
returned identifier, with no intervening operation, yields exactly the same
player_name and score. Holds for any healthy store in which the driver's next
ObjectId is fresh. -/
theorem C4_roundtrip (db : ScoresColl) (p : PlayerScoreDoc)
    (hok : db.failure = none)
    (hfresh : ∀ q ∈ db.docs, q.1 ≠ natToHex24 db.counter)
    (hvalid : validPlayerScore p = true) :
    ∃ (i : String) (db' : ScoresColl),
      post_player_score db p = (.ok ⟨"Score recorded", i⟩, db') ∧
      get_player_score db' i = .ok ⟨p.player_name, p.score⟩ := by
  refine ⟨natToHex24 db.counter,
    { db with docs := db.docs ++ [(natToHex24 db.counter, p)],
              counter := db.counter + 1 }, ?_, ?_⟩
  · simp [post_player_score, hvalid, add_score, runTrySt, Collection.insert_one, hok]
  · have hvalidId := objectIdIsValid_natToHex24 db.counter
    have hfind : ((db.docs ++ [(natToHex24 db.counter, p)]).find?
        fun q => q.1 == natToHex24 db.counter) = some (natToHex24 db.counter, p) := by
      rw [find?_append_none]
      · exact List.find?_cons_of_pos _ (by simp)
      · apply List.find?_eq_none.mpr
        intro q hq
        simpa using hfresh q hq
    simp only [get_player_score, runTry, Collection.find_one, hvalidId, hfind, hok,
      Bool.not_true, Bool.false_eq_true, if_false, Option.map_some]
    rfl

/-- Witness for C4 on the empty collection and the spec's example payload. -/
theorem C4_witness :
    ∃ (i : String) (db' : ScoresColl),
      post_player_score emptyScores ⟨"Ada", 150⟩ = (.ok ⟨"Score recorded", i⟩, db') ∧
      get_player_score db' i = .ok ⟨"Ada", 150⟩ :=
  C4_roundtrip emptyScores ⟨"Ada", 150⟩ rfl (by simp [emptyScores]) (by decide)

/-- The ObjectId of the single document in the C5 scenario. -/
def c5Id : String := "5f1a7c9b8d2e4f11aa22bb33"

/-- A `scores` collection holding exactly one document, under `c5Id`. -/
def c5Db : ScoresColl := ⟨[(c5Id, ⟨"Ada", 150⟩)], 0, none⟩

/-- Claim C5: deleting the same present identifier twice is claimed to yield
success (removing exactly one document) then the not-found (404) error. The
first call does succeed and removes the only document, but the second call
returns 500, not 404: the `raise HTTPException(404, ...)` inside the `try`
block is caught by `except Exception` and re-raised as a 500. -/
theorem C5_delete_twice :
    (delete_player_score c5Db c5Id).1 = .ok ⟨"Player score deleted", c5Id⟩ ∧
    (delete_player_score c5Db c5Id).2.docs = [] ∧
    (delete_player_score (delete_player_score c5Db c5Id).2 c5Id).1
      = .httpError 500 "Failed to delete player score: 404: Player score not found" :=
  ⟨rfl, rfl, rfl⟩

/-- Claim C6: the pydantic `PlayerScore` model accepts score 0 and 200 and
rejects -1 and 201; accepts player_name lengths 1 and 50 and rejects 0 and
51; and an invalid payload is rejected by the route (as a 422 client error)
before the handler body, leaving the store untouched. -/
theorem C6_payload_validation :
    validPlayerScore ⟨"A", 0⟩ = true ∧
    validPlayerScore ⟨"A", 200⟩ = true ∧
    validPlayerScore ⟨"A", -1⟩ = false ∧
    validPlayerScore ⟨"A", 201⟩ = false ∧
    validPlayerScore ⟨⟨List.replicate 50 (Char.ofNat 97)⟩, 100⟩ = true ∧
    validPlayerScore ⟨"", 100⟩ = false ∧
    validPlayerScore ⟨⟨List.replicate 51 (Char.ofNat 97)⟩, 100⟩ = false ∧
    (∀ (db : ScoresColl) (p : PlayerScoreDoc), validPlayerScore p = false →
      post_player_score db p = (.httpError 422 "Unprocessable Entity", db)) := by
  refine ⟨by decide, by decide, by decide, by decide, by decide, by decide, by decide, ?_⟩
  intro db p h
  simp [post_player_score, h]

/-- Witness for C6's route clause: an empty name is rejected with the store
untouched. -/
theorem C6_witness :
    post_player_score emptyScores ⟨"", 5⟩
      = (.httpError 422 "Unprocessable Entity", emptyScores) :=
  C6_payload_validation.2.2.2.2.2.2.2 emptyScores ⟨"", 5⟩ (by decide)

/-- Claim C7: an upload whose filename extension is outside the per-resource
allow-list is rejected with a 400 client error before the file content is read
(the result does not depend on the content) and before any store write (the
collection is returned unchanged); a filename ending in an allowed extension
passes the check, and on a healthy store the upload succeeds. -/
theorem C7_extension_gating :
    (∀ (db : AssetColl) (f : UploadedFile), sprite_ext_ok f.filename = false →
        upload_sprite db f
          = (.httpError 400 "Invalid file type. Only PNG and JPG are allowed.", db) ∧
        ∀ c₂ : List Nat, upload_sprite db ⟨f.filename, c₂⟩ = upload_sprite db f) ∧
    (∀ (db : AssetColl) (f : UploadedFile), audio_ext_ok f.filename = false →
        upload_audio db f
          = (.httpError 400 "Invalid file type. File must be an audio file!", db) ∧
        ∀ c₂ : List Nat, upload_audio db ⟨f.filename, c₂⟩ = upload_audio db f) ∧
    (∀ (db : AssetColl) (f : UploadedFile),
        db.failure = none → sprite_ext_ok f.filename = true →
        ∃ (i : String) (db' : AssetColl),
          upload_sprite db f = (.ok ⟨"Sprite uploaded", i⟩, db')) ∧
    (∀ (db : AssetColl) (f : UploadedFile),
        db.failure = none → audio_ext_ok f.filename = true →
        ∃ (i : String) (db' : AssetColl),
          upload_audio db f = (.ok ⟨"Audio file uploaded", i⟩, db')) := by
  refine ⟨?_, ?_, ?_, ?_⟩
  · intro db f h
    exact ⟨by simp [upload_sprite, h], fun c₂ => by simp [upload_sprite, h]⟩
  · intro db f h
    exact ⟨by simp [upload_audio, h], fun c₂ => by simp [upload_audio, h]⟩
  · intro db f hok hext
    refine ⟨natToHex24 db.counter,
      { db with docs := db.docs ++ [(natToHex24 db.counter, ⟨f.filename, f.content⟩)],
                counter := db.counter + 1 }, ?_⟩
    simp only [upload_sprite, hext, runTrySt, Collection.insert_one, hok, Bool.not_true,
      Bool.false_eq_true, if_false]
    rfl
  · intro db f hok hext
    refine ⟨natToHex24 db.counter,
      { db with docs := db.docs ++ [(natToHex24 db.counter, ⟨f.filename, f.content⟩)],
                counter := db.counter + 1 }, ?_⟩
    simp only [upload_audio, hext, runTrySt, Collection.insert_one, hok, Bool.not_true,
      Bool.false_eq_true, if_false]
    rfl

/-- Witness for C7: a `.gif` sprite upload is rejected with the store
untouched, and a `.png` upload succeeds. -/
theorem C7_witness :
    upload_sprite ⟨[], 0, none⟩ ⟨"a.gif", [0]⟩
      = (.httpError 400 "Invalid file type. Only PNG and JPG are allowed.", ⟨[], 0, none⟩) ∧
    ∃ (i : String) (db' : AssetColl),
      upload_sprite ⟨[], 0, none⟩ ⟨"a.png", [0]⟩ = (.ok ⟨"Sprite uploaded", i⟩, db') :=
  ⟨(C7_extension_gating.1 ⟨[], 0, none⟩ ⟨"a.gif", [0]⟩ (by decide)).1,
   C7_extension_gating.2.2.1 ⟨[], 0, none⟩ ⟨"a.png", [0]⟩ rfl (by decide)⟩

/-- Claim C8: every response produced by the application, for every route and
outcome, carries the full fixed security header set after the middleware runs;
with the CSP toggle on the Content-Security-Policy value is the (non-empty)
serialized policy, and with it off the value is the empty string while the
other headers are still present. -/
theorem C8_security_headers (csp : Bool) (resp : HttpResponse) (name : String)
    (hmem : name ∈ securityHeaderNames) :
    (getHeader (dispatch csp resp).headers name).isSome = true ∧
    getHeader (dispatch true resp).headers "Content-Security-Policy" = some cspHeaderValue ∧
    cspHeaderValue ≠ "" ∧
    getHeader (dispatch false resp).headers "Content-Security-Policy" = some "" := by
  have hnodup : ∀ b : Bool, ((securityHeaders b).map fun p => lowerName p.1).Nodup := by
    intro b
    cases b <;> decide
  refine ⟨?_, ?_, by decide, ?_⟩
  · have hkeys : (securityHeaders csp).map Prod.fst = securityHeaderNames := by
      cases csp <;> rfl
    rw [← hkeys] at hmem
    obtain ⟨⟨k1, k2⟩, hkv, hfst⟩ := List.mem_map.mp hmem
    have hget := getHeader_headersUpdate_mem (securityHeaders csp) resp.headers k1 k2
      (hnodup csp) hkv
    have hname : getHeader (dispatch csp resp).headers name = some k2 := by
      rw [← hfst]
      exact hget
    rw [hname]
    rfl
  · exact getHeader_headersUpdate_mem _ _ _ _ (hnodup true)
      (by simp [securityHeaders, cspHeaderValue])
  · exact getHeader_headersUpdate_mem _ _ _ _ (hnodup false)
      (by simp [securityHeaders])

/-- Witness for C8 on a concrete error response with no prior headers. -/
theorem C8_witness :
    (getHeader (dispatch true ⟨404, "err", []⟩).headers "X-Frame-Options").isSome = true ∧
    getHeader (dispatch true ⟨404, "err", []⟩).headers "Content-Security-Policy"
      = some cspHeaderValue :=
  ⟨(C8_security_headers true ⟨404, "err", []⟩ "X-Frame-Options" (by decide)).1,
   (C8_security_headers true ⟨404, "err", []⟩ "X-Frame-Options" (by decide)).2.1⟩

/-- Claim C9: `parse_policy` behaves exactly as the spec describes it, on both
ordered-mapping inputs and raw policy strings: the source translation and the
definition written from the claim's words agree on every input. -/
theorem C9_parse_policy_matches_spec (pol : PolicyInput) :
    spec_parse_policy pol = parse_policy pol := by
  cases pol with
  | dict d =>
    show specSerialize (d.map fun p => (p.1, policyValuesList p.2)) = serializePolicyDict d
    unfold specSerialize serializePolicyDict
    rw [List.map_map]
    have hmap : ∀ l : List (String × PolicyValue),
        l.map ((fun q : String × List String => q.1 ++ " " ++ String.intercalate " " q.2)
            ∘ fun p => (p.1, policyValuesList p.2))
          = l.map fun p => p.1 ++ " " ++ policyContentStr p.2 := by
      intro l
      induction l with
      | nil => rfl
      | cons p rest ih =>
        rw [List.map_cons, List.map_cons, ih]
        rcases p with ⟨k, v⟩
        cases v <;> rfl
    rw [hmap]
  | raw s =>
    show specSerialize (specRawToDict s)
      = serializePolicyDict ((policyStringToDict s).map fun p => (p.1, PolicyValue.one p.2))
    unfold specSerialize serializePolicyDict
    rw [← rawToDict_join, List.map_map, List.map_map]
    rfl

/-- A concrete downstream response whose handler already set one of the seven
protected names (differently) plus an unrelated header. -/
def demoResp : HttpResponse :=
  ⟨200, "hello", [("X-Frame-Options", "SAMEORIGIN"), ("X-Request-Id", "7")]⟩

/-- Claim C10: the middleware unconditionally overwrites the seven security
header names on the outgoing response (a handler-set value for one of those
names is replaced by the middleware's fixed value, matched case-insensitively),
while the response status, body, and every header with another name are left
unchanged. -/
theorem C10_overwrite (csp : Bool) (resp : HttpResponse) :
    (dispatch csp resp).status = resp.status ∧
    (dispatch csp resp).body = resp.body ∧
    (∀ kv ∈ securityHeaders csp, getHeader (dispatch csp resp).headers kv.1 = some kv.2) ∧
    (∀ k : String, (∀ kv ∈ securityHeaders csp, lowerName kv.1 ≠ lowerName k) →
      getHeader (dispatch csp resp).headers k = getHeader resp.headers k) := by
  refine ⟨rfl, rfl, ?_, ?_⟩
  · rintro ⟨k1, k2⟩ hkv
    exact getHeader_headersUpdate_mem _ _ _ _ (by cases csp <;> decide) hkv
  · intro k hk
    exact getHeader_headersUpdate_notmem _ _ _ hk

/-- Witness for C10 on `demoResp`: the handler's X-Frame-Options value is
replaced, the unrelated header and the status survive. -/
theorem C10_witness :
    getHeader (dispatch true demoResp).headers "X-Frame-Options" = some "DENY" ∧
    getHeader (dispatch true demoResp).headers "X-Request-Id" = some "7" ∧
    (dispatch true demoResp).status = 200 := by
  refine ⟨(C10_overwrite true demoResp).2.2.1 ("X-Frame-Options", "DENY") (by decide),
    ?_, (C10_overwrite true demoResp).1⟩
  rw [(C10_overwrite true demoResp).2.2.2 "X-Request-Id" (by decide)]
  rfl

end McastDB
